import Mathlib

/-!
Verification of the node-graph execution engine used by the workflow
scripts in this repository (test0.py .. test5.py), together with shallow
embeddings of the node functions those scripts register on it.

The engine itself (`StateGraph` / `compile` / `invoke`) lives in the
external `langgraph` package, not in this repository; it is therefore
modelled from the specification (see the doc comments starting with
`Modelled from the spec:`).  The node bodies, routers, graph wiring and
initial states are translated from the Python sources.  LLM calls and
human console input are opaque collaborators and are modelled as oracle
functions passed in as parameters.
-/

namespace LG

/-- Modelled from the spec: a state field value — "string, number, boolean".
Numbers are modelled as integers (every numeric value the scripts actually
thread through the engine is an integer). -/
inductive Value where
  | str (s : String)
  | int (n : Int)
  | bool (b : Bool)
deriving DecidableEq, Repr

/-- Modelled from the spec: the State is "a mapping from field name (string)
to value", represented as an association list read through `lookupKey`. -/
abbrev State := List (String × Value)

/-- Lookup of a key in an association list (leftmost binding wins, as in a
Python dict where each key occurs at most once). -/
def lookupKey {α : Type} : List (String × α) → String → Option α
  | [], _ => none
  | (k, v) :: rest, key => if k = key then some v else lookupKey rest key

/-- Write one key of the state: overwrite in place when the key is present,
append otherwise — the behaviour of `d[k] = v` on a Python dict. -/
def setKey : State → String → Value → State
  | [], k, v => [(k, v)]
  | (k', v') :: rest, k, v =>
      if k' = k then (k', v) :: rest else (k', v') :: setKey rest k v

/-- Modelled from the spec: the merge rule — "overlay its keys onto the
current state (shallow key-wise overwrite; keys not present in R are
untouched)".  A full-state result is a mapping holding every field, so the
same overlay realises "replaces the accessible fields entirely". -/
def merge (s : State) (upd : State) : State :=
  upd.foldl (fun acc kv => setKey acc kv.1 kv.2) s

/-- Modelled from the spec: an edge source — a node identifier or the
virtual entry marker START. -/
inductive Src where
  | START
  | node (name : String)
deriving DecidableEq, Repr

/-- Modelled from the spec: an edge target — a node identifier or the
virtual terminal marker END. -/
inductive Tgt where
  | END
  | node (name : String)
deriving DecidableEq, Repr

/-- Modelled from the spec: a node's work capability.  `none` models a node
body raising an exception (fail-fast, propagated, no recovery). -/
abbrev Work := State → Option State

/-- Modelled from the spec: a conditional edge `from → router` with a
mapping from routing key to destination.  A router returning `none` models
the router function itself raising. -/
structure CondEdge where
  src : String
  router : State → Option String
  mapping : List (String × Tgt)

/-- Modelled from the spec: the graph — node registry plus edge set, built
before compilation. -/
structure Graph where
  nodes : List (String × (State → Option State))
  edges : List (Src × Tgt)
  conds : List CondEdge

/-- Run-time failure inside one wave. -/
inductive RunErr where
  | routing (node key : String)
  | nodeExc (node : String)

/-- Registered work capability of a node, by name. -/
def getWork (g : Graph) (n : String) : Option (State → Option State) :=
  lookupKey g.nodes n

/-- Selects the target of an edge whose source is the named node. -/
def staticMatch (n : String) : Src × Tgt → Option Tgt
  | (.node m, t) => if m = n then some t else none
  | (.START, _) => none

/-- Targets of the static edges leaving a named node. -/
def staticSuccs (g : Graph) (n : String) : List Tgt :=
  g.edges.filterMap (staticMatch n)

/-- Selects the target of an edge whose source is START. -/
def startMatch : Src × Tgt → Option Tgt
  | (.START, t) => some t
  | (.node _, _) => none

/-- Targets of the static edges leaving START. -/
def startSuccs (g : Graph) : List Tgt :=
  g.edges.filterMap startMatch

/-- Modelled from the spec: resolving one conditional edge — "a conditional
edge evaluates its router against the current merged state and contributes
exactly one resolved target"; a key absent from the mapping is the
RoutingError. -/
def routeOne (ce : CondEdge) (s : State) : Except RunErr Tgt :=
  match ce.router s with
  | none => .error (.nodeExc ce.src)
  | some k =>
      match lookupKey ce.mapping k with
      | none => .error (.routing ce.src k)
      | some t => .ok t

/-- Conditional edges leaving a named node. -/
def condEdgesOf (g : Graph) (n : String) : List CondEdge :=
  g.conds.filterMap fun ce => if ce.src = n then some ce else none

/-- Resolve a list of conditional edges against a state, stopping at the
first failure. -/
def routeAll (s : State) : List CondEdge → Except RunErr (List Tgt)
  | [] => .ok []
  | ce :: rest =>
      match routeOne ce s with
      | .error e => .error e
      | .ok t =>
          match routeAll s rest with
          | .error e => .error e
          | .ok ts => .ok (t :: ts)

/-- Resolved targets of all conditional edges leaving a named node. -/
def condSuccs (g : Graph) (n : String) (s : State) : Except RunErr (List Tgt) :=
  routeAll s (condEdgesOf g n)

/-- Modelled from the spec: execute one wave — run each frontier node on the
current merged state, overlay its result, and collect the successor targets
contributed by its static and conditional edges; abort on the first failing
node (the conservative required behaviour).  Returns the merged state, the
contributed targets and the executed node names in order. -/
def runWave (g : Graph) : List String → State → Except RunErr (State × List Tgt × List String)
  | [], s => .ok (s, [], [])
  | n :: rest, s =>
      match getWork g n with
      | none => .error (.nodeExc n)
      | some w =>
          match w s with
          | none => .error (.nodeExc n)
          | some r =>
              let s' := merge s r
              match condSuccs g n s' with
              | .error e => .error e
              | .ok ctgts =>
                  match runWave g rest s' with
                  | .error e => .error e
                  | .ok (s'', tgts, names) =>
                      .ok (s'', (staticSuccs g n ++ ctgts) ++ tgts, n :: names)

/-- Remove duplicates keeping the first occurrence (helper for the frontier,
which is a set of node names). -/
def dedupAux : List String → List String → List String
  | [], _ => []
  | x :: xs, seen =>
      if seen.contains x then dedupAux xs seen else x :: dedupAux xs (x :: seen)

/-- Duplicate-free view of a list of node names. -/
def dedupFirst (l : List String) : List String := dedupAux l []

/-- Modelled from the spec: the frontier advances to the union of the
contributed successors, excluding any branch that resolved to END; a fan-in
node appearing through several incoming edges is kept once — "it executes
exactly once per wave, not once per incoming edge". -/
def nextFrontier (tgts : List Tgt) : List String :=
  dedupFirst (tgts.filterMap fun t =>
    match t with
    | .END => none
    | .node m => some m)

/-- Outcome of a run.  `ok` carries the final merged state and the trace of
executed node names; the error outcomes carry no state — "partial state so
far is discarded (not returned)". -/
inductive RunResult where
  | ok (s : State) (trace : List String)
  | routingError (node key : String)
  | nodeError (node : String)
  | outOfFuel
deriving DecidableEq, Repr

/-- Modelled from the spec: the wave loop — "the run terminates when the
frontier becomes empty".  The engine itself has no step limit; the `fuel`
argument only bounds this embedding, with `outOfFuel` marking a run that
needs more waves than supplied. -/
def invokeLoop (g : Graph) : Nat → List String → State → List String → RunResult
  | _, [], s, tr => .ok s tr
  | 0, _ :: _, _, _ => .outOfFuel
  | fuel + 1, n :: rest, s, tr =>
      match runWave g (n :: rest) s with
      | .error (.routing nd k) => .routingError nd k
      | .error (.nodeExc nd) => .nodeError nd
      | .ok (s', tgts, names) => invokeLoop g fuel (nextFrontier tgts) s' (tr ++ names)

/-- Modelled from the spec: `invoke(initial_state)` — the initial frontier
is the set of nodes reachable from START via its static edges, then waves
run until the frontier is empty and the final merged state is returned. -/
def invoke (g : Graph) (fuel : Nat) (init : State) : RunResult :=
  invokeLoop g fuel (nextFrontier (startSuccs g)) init []

/-- Modelled from the spec: the compile-time definition errors. -/
inductive DefError where
  | dangling (name : String)
  | startNoEdge
  | endUnreachable
deriving DecidableEq, Repr

/-- Modelled from the spec: an immutable validated snapshot of a graph. -/
structure CompiledWorkflow where
  graph : Graph

/-- Names of the registered nodes. -/
def nodeNames (g : Graph) : List String := g.nodes.map Prod.fst

/-- Node name referenced by an edge source, if any. -/
def srcName : Src → Option String
  | .START => none
  | .node n => some n

/-- Node name referenced by an edge target, if any. -/
def tgtName : Tgt → Option String
  | .END => none
  | .node n => some n

/-- Every node name referenced by some edge endpoint or conditional-edge
mapping of the graph. -/
def referencedNames (g : Graph) : List String :=
  g.edges.flatMap (fun e => (srcName e.1).toList ++ (tgtName e.2).toList) ++
    g.conds.flatMap (fun ce => ce.src :: ce.mapping.filterMap fun kv => tgtName kv.2)

/-- First referenced name that was never registered via add_node, if any. -/
def danglingName (g : Graph) : Option String :=
  (referencedNames g).find? fun n => !(nodeNames g).contains n

/-- All statically known successor targets of a node: static edge targets
plus every target of its conditional mappings. -/
def allSuccTgts (g : Graph) (n : String) : List Tgt :=
  staticSuccs g n ++ (condEdgesOf g n).flatMap fun ce => ce.mapping.map Prod.snd

/-- Whether END occurs among a list of targets. -/
def hasEndTgt (l : List Tgt) : Bool :=
  l.any fun t =>
    match t with
    | .END => true
    | .node _ => false

/-- One step of the reachability closure over node names. -/
def reachStep (g : Graph) (cur : List String) : List String :=
  dedupFirst (cur ++ cur.flatMap fun n => (allSuccTgts g n).filterMap tgtName)

/-- Iterate a function n times (structural, so it evaluates in the kernel). -/
def iterN {α : Type} (f : α → α) : Nat → α → α
  | 0, a => a
  | k + 1, a => iterN f k (f a)

/-- Node names reachable from START, computed by iterating the closure step
once per registered node. -/
def reachSet (g : Graph) : List String :=
  iterN (reachStep g) (g.nodes.length + 1) (nextFrontier (startSuccs g))

/-- Whether END is reachable from START through the static and conditional
edges. -/
def endReachable (g : Graph) : Bool :=
  hasEndTgt (startSuccs g) ||
    (reachSet g).any fun n => hasEndTgt (allSuccTgts g n)

/-- Modelled from the spec: `compile()` — fails with a definition error on a
dangling edge reference, on START having no outgoing edge, or on END being
unreachable; otherwise returns the validated workflow.  (The spec's
best-effort inescapable-cycle check is explicitly not required to detect
anything and is omitted.) -/
def compile (g : Graph) : Except DefError CompiledWorkflow :=
  match danglingName g with
  | some n => .error (.dangling n)
  | none =>
      if (startSuccs g).isEmpty then .error .startNoEdge
      else if !endReachable g then .error .endUnreachable
      else .ok ⟨g⟩

/-- An LLM client: from prompt to response text (`llm.invoke(prompt).content`).
The scripts all use one shared client; it is passed to the node builders as
an oracle parameter. -/
abbrev Llm := String → String

/-- Python `str()` of a state value, as used when a value is interpolated
into an f-string prompt. -/
def Value.pyStr : Value → String
  | .str s => s
  | .int n => toString n
  | .bool b => if b then "True" else "False"

/-- Python truthiness of a state value (`if state[...]:`). -/
def Value.truthy : Value → Bool
  | .str s => s ≠ ""
  | .int n => n ≠ 0
  | .bool b => b

/-- Python `str.strip()`: drop whitespace from both ends, modelled over the
character list so it evaluates in the kernel. -/
def pyStrip (s : String) : String :=
  String.mk (((s.toList.dropWhile Char.isWhitespace).reverse.dropWhile
      Char.isWhitespace).reverse)

/-- Python `str.lower()`, modelled over the character list so it evaluates
in the kernel. -/
def pyLower (s : String) : String :=
  String.mk (s.toList.map Char.toLower)

/-- Numeric value of a list of decimal digit characters (Python `int` on a
digit string). -/
def digitsToNat (ds : List Char) : Nat :=
  ds.foldl (fun a c => a * 10 + (c.toNat - 48)) 0

/-- Score extraction shared by the three analysis nodes of test3.py:
`score = int(''.join(filter(str.isdigit, response))[:3]); score = min(score, 100)`
applied to the stripped response, specialised to ASCII digit characters.
`none` models the ValueError `int('')` raises when the response holds no
digit.  This specialisation only carries the claims that depend on the
shape of the produced update; Python's full Unicode digit handling —
`str.isdigit` also accepts non-decimal digit characters that `int()`
rejects with a ValueError, and `int()` values non-ASCII decimal digits —
is modelled by `parseScoreU` below over explicit digit tables. -/
def parseScore (response : String) : Option Nat :=
  if (((pyStrip response).toList.filter Char.isDigit).take 3).isEmpty then none
  else some (min (digitsToNat (((pyStrip response).toList.filter Char.isDigit).take 3)) 100)

/-- Modelled from the Python runtime: the fragment of the Unicode character
database consulted by test3.py's score parsing.  `isdigit` is the
per-character classification behind `str.isdigit`; `decimal` gives the
value `int()` assigns to a decimal-digit character, and `none` for every
character `int()` rejects with a ValueError — including the non-decimal
digit characters (superscripts and the like) that `str.isdigit` accepts.
The laws pin the ASCII digit range to its standard values and keep the
decimal digits inside the digit class with single-digit values. -/
structure PyUnicode where
  isdigit : Char → Bool
  decimal : Char → Option Nat
  ascii_decimal : ∀ c : Char, 48 ≤ c.toNat → c.toNat ≤ 57 →
    decimal c = some (c.toNat - 48)
  decimal_isdigit : ∀ c v, decimal c = some v → isdigit c = true
  decimal_lt_ten : ∀ c v, decimal c = some v → v < 10

/-- Digit tables covering the ASCII digits plus two carriers of the
non-ASCII behaviour: the superscript two U+00B2 (a `str.isdigit` character
that `int()` rejects) and the Arabic-Indic digit nine U+0669 (a decimal
digit of value 9).  Every other character is left unclassified; the tables
agree with Python on every character they mention. -/
def unicodeDemo : PyUnicode where
  isdigit c := decide (48 ≤ c.toNat ∧ c.toNat ≤ 57) || c == '²' || c == '٩'
  decimal c :=
    if 48 ≤ c.toNat ∧ c.toNat ≤ 57 then some (c.toNat - 48)
    else if c = '٩' then some 9 else none
  ascii_decimal c h1 h2 := by
    dsimp only
    rw [if_pos ⟨h1, h2⟩]
  decimal_isdigit c v h := by
    dsimp only at h ⊢
    by_cases hr : 48 ≤ c.toNat ∧ c.toNat ≤ 57
    · simp [hr]
    · rw [if_neg hr] at h
      by_cases hn : c = '٩'
      · simp [hn]
      · rw [if_neg hn] at h
        exact absurd h (by simp)
  decimal_lt_ten c v h := by
    dsimp only at h
    by_cases hr : 48 ≤ c.toNat ∧ c.toNat ≤ 57
    · rw [if_pos hr] at h
      injection h with h'
      omega
    · rw [if_neg hr] at h
      by_cases hn : c = '٩'
      · rw [if_pos hn] at h
        injection h with h'
        omega
      · rw [if_neg hn] at h
        exact absurd h (by simp)

/-- Accumulator loop of `pyInt`: consume decimal digit values left to
right, failing on the first character `int()` rejects. -/
def pyIntGo (u : PyUnicode) : List Char → Nat → Option Nat
  | [], acc => some acc
  | c :: cs, acc =>
      match u.decimal c with
      | none => none
      | some v => pyIntGo u cs (acc * 10 + v)

/-- Python `int()` applied to a string of digit characters: ValueError
(`none`) on the empty string and on any character that is not a decimal
digit, otherwise the base-10 number formed from the characters' decimal
values. -/
def pyInt (u : PyUnicode) (ds : List Char) : Option Nat :=
  match ds with
  | [] => none
  | _ :: _ => pyIntGo u ds 0

/-- Score extraction of the test3.py nodes over the Unicode digit tables:
`score = int(''.join(filter(str.isdigit, response))[:3]); score = min(score, 100)`
on the stripped response, with `none` for both ValueError paths of
`int()` — the empty digit string and a non-decimal digit character among
the first three digit characters. -/
def parseScoreU (u : PyUnicode) (response : String) : Option Nat :=
  match pyInt u (((pyStrip response).toList.filter u.isdigit).take 3) with
  | none => none
  | some n => some (min n 100)

namespace T0

/-- test0.py `addfun`: `result = num1 + num2`, stored into the state, which
is returned whole.  The script's run feeds integer literals; missing or
non-numeric operands model the exception Python would raise. -/
def addfun (s : State) : Option State :=
  match lookupKey s "num1", lookupKey s "num2" with
  | some (.int a), some (.int b) => some (setKey s "result" (.int (a + b)))
  | _, _ => none

/-- test0.py graph: node `add`, edges START→add→END. -/
def graph : Graph :=
  { nodes := [("add", addfun)]
  , edges := [(.START, .node "add"), (.node "add", .END)]
  , conds := [] }

end T0

namespace T2

/-- test2.py prompt of `generate_outline`. -/
def outlinePrompt (title : Value) : String :=
  "Create a detailed outline for a blog about: " ++ title.pyStr

/-- test2.py prompt of `generate_content`. -/
def contentPrompt (title outline : Value) : String :=
  "Write a detailed blog post with this title: " ++ title.pyStr ++
    "\n\nUse this outline:\n" ++ outline.pyStr

/-- test2.py `generate_outline`: writes `outline` into the state and returns
the whole state. -/
def generate_outline (llm : Llm) (s : State) : Option State :=
  match lookupKey s "title" with
  | some t => some (setKey s "outline" (.str (llm (outlinePrompt t))))
  | none => none

/-- test2.py `generate_content`: writes `content` into the state and returns
the whole state. -/
def generate_content (llm : Llm) (s : State) : Option State :=
  match lookupKey s "title", lookupKey s "outline" with
  | some t, some o => some (setKey s "content" (.str (llm (contentPrompt t o))))
  | _, _ => none

end T2

namespace T3

/-- test3.py prompt of `grammar_node`. -/
def grammarPrompt (essay : Value) : String :=
  "Analyze the grammar of this essay and give a score out of 100:\n    \nEssay: \"" ++
    essay.pyStr ++
    "\"\n\nConsider:\n- Spelling errors\n- Punctuation\n- Sentence structure\n\nReturn ONLY a number between 0-100:"

/-- test3.py prompt of `sentiment_node`. -/
def sentimentPrompt (essay : Value) : String :=
  "Analyze the sentiment of this essay and give a score out of 100:\n    \nEssay: \"" ++
    essay.pyStr ++
    "\"\n\nConsider:\n- Overall emotional tone\n- Positivity/negativity\n- Engagement level\n\nReturn ONLY a number between 0-100:"

/-- test3.py prompt of `clarity_node`. -/
def clarityPrompt (essay : Value) : String :=
  "Analyze the clarity of this essay and give a score out of 100:\n    \nEssay: \"" ++
    essay.pyStr ++
    "\"\n\nConsider:\n- Ease of understanding\n- Clear expression\n- Logical flow\n\nReturn ONLY a number between 0-100:"

/-- test3.py prompt of `finalizer_node`.  The `:.1f` decimal rendering of
the average is abstracted by the rendered score sum, which determines it. -/
def finalizerPrompt (essay : Value) (g s c : Int) : String :=
  "Generate a comprehensive analysis report based on these scores:\n\nEssay: \"" ++
    essay.pyStr ++ "\"\n\nScores:\n- Grammar: " ++ toString g ++
    "/100\n- Sentiment: " ++ toString s ++ "/100  \n- Clarity: " ++ toString c ++
    "/100\n\nAverage Score: " ++ toString (g + s + c) ++
    "/300 over 3\n\nCreate a detailed report with:\n1. Overall assessment\n2. Strengths\n3. Areas for improvement\n4. Specific recommendations\n\nFormat the report clearly:"

/-- test3.py `grammar_node`: scores the essay and returns ONLY the
`grammar_score` update. -/
def grammar_node (llm : Llm) (s : State) : Option State :=
  match lookupKey s "essay" with
  | none => none
  | some e =>
      match parseScore (llm (grammarPrompt e)) with
      | none => none
      | some sc => some [("grammar_score", .int sc)]

/-- test3.py `sentiment_node`: scores the essay and returns ONLY the
`sentiment_score` update. -/
def sentiment_node (llm : Llm) (s : State) : Option State :=
  match lookupKey s "essay" with
  | none => none
  | some e =>
      match parseScore (llm (sentimentPrompt e)) with
      | none => none
      | some sc => some [("sentiment_score", .int sc)]

/-- test3.py `clarity_node`: scores the essay and returns ONLY the
`clarity_score` update. -/
def clarity_node (llm : Llm) (s : State) : Option State :=
  match lookupKey s "essay" with
  | none => none
  | some e =>
      match parseScore (llm (clarityPrompt e)) with
      | none => none
      | some sc => some [("clarity_score", .int sc)]

/-- test3.py `finalizer_node`: reads the three scores and the essay and
returns ONLY the `final_result` update. -/
def finalizer_node (llm : Llm) (s : State) : Option State :=
  match lookupKey s "essay", lookupKey s "grammar_score",
      lookupKey s "sentiment_score", lookupKey s "clarity_score" with
  | some e, some (.int g), some (.int sc), some (.int c) =>
      some [("final_result", .str (llm (finalizerPrompt e g sc c)))]
  | _, _, _, _ => none

/-- test3.py graph: fan-out START→{grammar, sentiment, clarity}, fan-in to
finalizer, then END. -/
def graph (llm : Llm) : Graph :=
  { nodes := [("grammar", grammar_node llm), ("sentiment", sentiment_node llm),
      ("clarity", clarity_node llm), ("finalizer", finalizer_node llm)]
  , edges := [(.START, .node "grammar"), (.START, .node "sentiment"),
      (.START, .node "clarity"), (.node "grammar", .node "finalizer"),
      (.node "sentiment", .node "finalizer"), (.node "clarity", .node "finalizer"),
      (.node "finalizer", .END)]
  , conds := [] }

/-- test3.py initial state. -/
def initState (essay : String) : State :=
  [("essay", .str essay), ("grammar_score", .int 0), ("sentiment_score", .int 0),
    ("clarity_score", .int 0), ("final_result", .str "")]

/-- The state after the parallel wave: all three scores written. -/
def midState (essay : String) (gs ss cs : Nat) : State :=
  [("essay", .str essay), ("grammar_score", .int gs), ("sentiment_score", .int ss),
    ("clarity_score", .int cs), ("final_result", .str "")]

/-- The final state: the three scores plus the finalizer's report. -/
def finalState (llm : Llm) (essay : String) (gs ss cs : Nat) : State :=
  [("essay", .str essay), ("grammar_score", .int gs), ("sentiment_score", .int ss),
    ("clarity_score", .int cs),
    ("final_result", .str (llm (finalizerPrompt (.str essay) gs ss cs)))]

end T3

/-- test3.py `grammar_node` over the Unicode digit tables: identical to
`T3.grammar_node` except that the score parsing follows `str.isdigit` and
`int()` through the tables `u` instead of their ASCII specialisation. -/
def grammar_nodeU (u : PyUnicode) (llm : Llm) (s : State) : Option State :=
  match lookupKey s "essay" with
  | none => none
  | some e =>
      match parseScoreU u (llm (T3.grammarPrompt e)) with
      | none => none
      | some sc => some [("grammar_score", .int sc)]

/-- test3.py `sentiment_node` over the Unicode digit tables. -/
def sentiment_nodeU (u : PyUnicode) (llm : Llm) (s : State) : Option State :=
  match lookupKey s "essay" with
  | none => none
  | some e =>
      match parseScoreU u (llm (T3.sentimentPrompt e)) with
      | none => none
      | some sc => some [("sentiment_score", .int sc)]

/-- test3.py `clarity_node` over the Unicode digit tables. -/
def clarity_nodeU (u : PyUnicode) (llm : Llm) (s : State) : Option State :=
  match lookupKey s "essay" with
  | none => none
  | some e =>
      match parseScoreU u (llm (T3.clarityPrompt e)) with
      | none => none
      | some sc => some [("clarity_score", .int sc)]

namespace T4

/-- test4.py prompt of `check_feedback`. -/
def checkPrompt (fb : Value) : String :=
  "Is this feedback positive or negative? Answer only \x27positive\x27 or \x27negative\x27: " ++
    fb.pyStr

/-- test4.py prompt of `thank_you`. -/
def thankPrompt (fb : Value) : String :=
  "Say thank you for positive feedback: " ++ fb.pyStr

/-- test4.py prompt of `apology`. -/
def apologyPrompt (fb : Value) : String :=
  "Apologize and say we\x27ll contact support about: " ++ fb.pyStr

/-- test4.py `check_feedback`: writes the LLM's sentiment verdict. -/
def check_feedback (llm : Llm) (s : State) : Option State :=
  match lookupKey s "feedback" with
  | some fb => some [("sentiment", .str (llm (checkPrompt fb)))]
  | none => none

/-- test4.py `thank_you`: writes the thank-you response. -/
def thank_you (llm : Llm) (s : State) : Option State :=
  match lookupKey s "feedback" with
  | some fb => some [("response", .str (llm (thankPrompt fb)))]
  | none => none

/-- test4.py `apology`: writes the apology response. -/
def apology (llm : Llm) (s : State) : Option State :=
  match lookupKey s "feedback" with
  | some fb => some [("response", .str (llm (apologyPrompt fb)))]
  | none => none

/-- test4.py router `decide_next`: "thank" when the sentiment equals the
exact string "positive", "sorry" otherwise.  `none` models the KeyError on
a state with no sentiment field. -/
def decide_next (s : State) : Option String :=
  match lookupKey s "sentiment" with
  | some v => some (if v = .str "positive" then "thank" else "sorry")
  | none => none

/-- test4.py conditional edge out of `check`. -/
def condEdge : CondEdge :=
  { src := "check", router := decide_next
  , mapping := [("thank", .node "thanknode"), ("sorry", .node "sorrynode")] }

/-- test4.py graph: START→check, conditional to thanknode/sorrynode, both
to END. -/
def graph (llm : Llm) : Graph :=
  { nodes := [("check", check_feedback llm), ("thanknode", thank_you llm),
      ("sorrynode", apology llm)]
  , edges := [(.START, .node "check"), (.node "thanknode", .END),
      (.node "sorrynode", .END)]
  , conds := [condEdge] }

end T4

namespace T5

/-- The routing key langgraph's END marker stands for when a router returns
it and when it is used as a mapping key. -/
def END_KEY : String := "__end__"

/-- test5.py prompt of `generate_description` when feedback is present. -/
def genPromptFb (pname fb : Value) : String :=
  "Generate a product description for \x27" ++ pname.pyStr ++
    "\x27. Previous feedback: " ++ fb.pyStr

/-- test5.py prompt of `generate_description` on the first pass. -/
def genPromptPlain (pname : Value) : String :=
  "Generate a short, compelling product description for \x27" ++ pname.pyStr ++ "\x27"

/-- test5.py `state.get('attempts', 0)` read as a number; a non-numeric
value models the TypeError `+ 1` would raise. -/
def attemptsOf (s : State) : Option Int :=
  match lookupKey s "attempts" with
  | none => some 0
  | some (.int n) => some n
  | some _ => none

/-- test5.py `generate_description`: regenerates the description (using the
human feedback when present), increments `attempts`, clears `feedback`. -/
def generate_description (llm : Llm) (s : State) : Option State :=
  match lookupKey s "feedback", lookupKey s "product_name" with
  | some fb, some pn =>
      let prompt := if fb.truthy then genPromptFb pn fb else genPromptPlain pn
      match attemptsOf s with
      | some a =>
          some [("description", .str (llm prompt)), ("attempts", .int (a + 1)),
            ("feedback", .str "")]
      | none => none
  | _, _ => none

/-- test5.py `get_approval`: auto-approves once `attempts >= 3`; before
that it consults the console.  `ans n` is the reply typed at the approve
prompt when `attempts = n`, `fbIn n` the revision feedback typed after a
rejection.  The three printed fields must be present (KeyError otherwise),
and `attempts` must be numeric for the `>= 3` comparison. -/
def get_approval (ans fbIn : Int → String) (s : State) : Option State :=
  match lookupKey s "attempts", lookupKey s "product_name", lookupKey s "description" with
  | some (.int a), some _, some _ =>
      if 3 ≤ a then some [("approved", .bool true)]
      else if pyLower (ans a) = "y" then some [("approved", .bool true)]
      else some [("approved", .bool false), ("feedback", .str (fbIn a))]
  | _, _, _ => none

/-- test5.py router `decide_next`: END when approved, back to `generate`
otherwise. -/
def decide_next (s : State) : Option String :=
  match lookupKey s "approved" with
  | some v => some (if v.truthy then END_KEY else "generate")
  | none => none

/-- test5.py conditional edge out of `approval`. -/
def condEdge : CondEdge :=
  { src := "approval", router := decide_next
  , mapping := [(END_KEY, .END), ("generate", .node "generate")] }

/-- test5.py graph: START→generate→approval, conditional back-edge to
generate or out to END. -/
def graph (llm : Llm) (ans fbIn : Int → String) : Graph :=
  { nodes := [("generate", generate_description llm), ("approval", get_approval ans fbIn)]
  , edges := [(.START, .node "generate"), (.node "generate", .node "approval")]
  , conds := [condEdge] }

/-- test5.py initial state. -/
def initState (pname : String) : State :=
  [("product_name", .str pname), ("description", .str ""), ("approved", .bool false),
    ("attempts", .int 0), ("feedback", .str "")]

/-- The description produced by the third `generate` execution of the
human-rejects-twice run: it regenerates from the feedback typed after the
second rejection (or from the plain prompt when that feedback was empty). -/
def desc3 (llm : Llm) (fbIn : Int → String) (pname : String) : String :=
  llm (if (Value.str (fbIn 2)).truthy then genPromptFb (.str pname) (.str (fbIn 2))
      else genPromptPlain (.str pname))

end T5

/-- A chain node: registered name plus work capability. -/
abbrev NW := String × Work

/-- Target of the edge entering a chain at its head: the first node, or END
when the chain is empty. -/
def firstTgt : List NW → Tgt
  | [] => .END
  | (n, _) :: _ => .node n

/-- Static edges linking a chain of nodes in order, the last one to END. -/
def chainEdges : List NW → List (Src × Tgt)
  | [] => []
  | (n, _) :: rest => (Src.node n, firstTgt rest) :: chainEdges rest

/-- The linear-chain graph START→n₁→n₂→...→END over a list of nodes. -/
def chainGraph (l : List NW) : Graph :=
  { nodes := l
  , edges := (Src.START, firstTgt l) :: chainEdges l
  , conds := [] }

/-- Sequential application of each node's merge, in list order: the
reference semantics a linear chain must refine.  A failing node aborts, as
in the engine. -/
def seqRun : List NW → State → List String → RunResult
  | [], s, tr => .ok s tr
  | (n, w) :: rest, s, tr =>
      match w s with
      | none => .nodeError n
      | some r => seqRun rest (merge s r) (tr ++ [n])

/-- A single-node graph START→check with one conditional edge out of it:
the canonical shape for exercising a router against its mapping. -/
def mkCondGraph (work : Work) (router : State → Option String)
    (mapping : List (String × Tgt)) : Graph :=
  { nodes := [("check", work)]
  , edges := [(.START, .node "check")]
  , conds := [{ src := "check", router := router, mapping := mapping }] }

/-- A graph wired like test0.py but with `add_edge("A", "ghost")` referencing
a name never registered via add_node. -/
def ghostGraph : Graph :=
  { nodes := [("A", fun s => some s)]
  , edges := [(.START, .node "A"), (.node "A", .node "ghost")]
  , conds := [] }

theorem lookupKey_setKey_ne (s : State) (k k' : String) (v : Value) (h : k' ≠ k) :
    lookupKey (setKey s k v) k' = lookupKey s k' := by
  induction s with
  | nil => simp [setKey, lookupKey, Ne.symm h]
  | cons a rest ih =>
      by_cases ha : a.1 = k
      · simp [setKey, ha, lookupKey, Ne.symm h]
      · simp only [setKey, ha, if_false, lookupKey]
        by_cases ha' : a.1 = k'
        · simp [ha']
        · simp [ha', ih]

theorem merge_single (s : State) (k : String) (v : Value) :
    merge s [(k, v)] = setKey s k v := rfl

/-- C8: for the single-node addition graph START→add→END, the compiled
workflow exists and invoking it on the state with num1 = 5, num2 = 5
returns the state with both inputs preserved and result = 10. -/
theorem c8_addition_run :
    compile T0.graph = .ok ⟨T0.graph⟩ ∧
      invoke T0.graph 1 [("num1", .int 5), ("num2", .int 5)] =
        .ok [("num1", .int 5), ("num2", .int 5), ("result", .int 10)] ["add"] :=
  ⟨rfl, by decide⟩

/-- C2: a node returning a partial mapping — grammar_node returns only the
grammar_score field — leaves every other field of the pre-node state
unchanged after the merge. -/
theorem c2_partial_update_frame (llm : Llm) (s r : State) (k : String)
    (hr : T3.grammar_node llm s = some r) (hk : k ≠ "grammar_score") :
    lookupKey (merge s r) k = lookupKey s k := by
  unfold T3.grammar_node at hr
  split at hr
  · exact absurd hr (by simp)
  · split at hr
    · exact absurd hr (by simp)
    · injection hr with h
      subst h
      rw [merge_single]
      exact lookupKey_setKey_ne _ _ _ _ hk

-- Concrete instance of the frame theorem: a two-field state, the essay
-- field survives the grammar merge untouched.
theorem c2_partial_update_frame_witness :
    T3.grammar_node (fun _ => "88") [("essay", .str "hi")] =
        some [("grammar_score", .int 88)] ∧
      ("essay" : String) ≠ "grammar_score" ∧
      lookupKey (merge [("essay", Value.str "hi")] [("grammar_score", Value.int 88)])
          "essay" =
        lookupKey [("essay", Value.str "hi")] "essay" :=
  ⟨by decide, by decide,
    c2_partial_update_frame (fun _ => "88") [("essay", .str "hi")]
      [("grammar_score", .int 88)] "essay" (by decide) (by decide)⟩

/-- C9: the feedback router decide_next is total over its mapping — on any
state whose sentiment field holds a value it returns "thank" exactly when
that value is the string "positive" and "sorry" otherwise, and either key
resolves in the conditional edge's mapping, so routing never fails for this
graph whatever the sentiment node wrote. -/
theorem c9_decide_next_total (s : State) (v : Value)
    (h : lookupKey s "sentiment" = some v) :
    T4.decide_next s = some (if v = Value.str "positive" then "thank" else "sorry") ∧
      ∃ t, routeOne T4.condEdge s = Except.ok t := by
  refine ⟨by simp [T4.decide_next, h], ?_⟩
  by_cases hv : v = Value.str "positive"
  · exact ⟨Tgt.node "thanknode",
      by simp [routeOne, T4.condEdge, T4.decide_next, h, hv, lookupKey]⟩
  · exact ⟨Tgt.node "sorrynode",
      by simp [routeOne, T4.condEdge, T4.decide_next, h, hv, lookupKey]⟩

/-- C4: with a conditional edge routed by decide_next over the mapping
thank→thanknode, sorry→sorrynode, invoke executes exactly the destination
mapped from the returned key — a sentiment of exactly "positive" yields
thanknode's response in the final state, any other sentiment yields
sorrynode's. -/
theorem c4_conditional_routing (llm : Llm) (fb : String) :
    invoke (T4.graph llm) 2 [("feedback", Value.str fb)] =
      (if llm (T4.checkPrompt (Value.str fb)) = "positive" then
        RunResult.ok
          [("feedback", Value.str fb),
            ("sentiment", Value.str (llm (T4.checkPrompt (Value.str fb)))),
            ("response", Value.str (llm (T4.thankPrompt (Value.str fb))))]
          ["check", "thanknode"]
      else
        RunResult.ok
          [("feedback", Value.str fb),
            ("sentiment", Value.str (llm (T4.checkPrompt (Value.str fb)))),
            ("response", Value.str (llm (T4.apologyPrompt (Value.str fb))))]
          ["check", "sorrynode"]) := by
  by_cases h : llm (T4.checkPrompt (Value.str fb)) = "positive" <;>
    simp [h, invoke, invokeLoop, runWave, getWork, lookupKey, startSuccs, startMatch,
      staticSuccs, staticMatch, condSuccs, condEdgesOf, routeAll, routeOne, nextFrontier,
      dedupFirst, dedupAux, merge, setKey, T4.graph, T4.check_feedback, T4.thank_you,
      T4.apology, T4.decide_next, T4.condEdge, List.filterMap_cons, List.foldl]

/-- C6: on any single-node graph whose conditional edge's router produces a
key absent from its mapping, invoke fails with the RoutingError naming that
key, and no final state is returned — the partial state accumulated by the
node's merge is discarded. -/
theorem c6_unmapped_routing_key (work : Work) (router : State → Option String)
    (mapping : List (String × Tgt)) (s0 r : State) (k : String) (fuel : Nat)
    (hw : work s0 = some r) (hr : router (merge s0 r) = some k)
    (hm : lookupKey mapping k = none) :
    invoke (mkCondGraph work router mapping) (fuel + 1) s0 =
        RunResult.routingError "check" k ∧
      ∀ fs tr, invoke (mkCondGraph work router mapping) (fuel + 1) s0 ≠
        RunResult.ok fs tr := by
  have hrun : invoke (mkCondGraph work router mapping) (fuel + 1) s0 =
      RunResult.routingError "check" k := by
    simp [invoke, invokeLoop, runWave, getWork, lookupKey, startSuccs, startMatch,
      staticSuccs, staticMatch, condSuccs, condEdgesOf, routeAll, routeOne, nextFrontier,
      dedupFirst, dedupAux, mkCondGraph, List.filterMap_cons, hw, hr, hm]
  exact ⟨hrun, fun fs tr => by simp [hrun]⟩

-- Concrete instance: the test4 router asked to route "sorry" against a
-- mapping that only knows "thank" aborts with a RoutingError.
theorem c6_unmapped_routing_key_witness :
    (fun _ : State => some [("sentiment", Value.str "negative")]) [] =
        some [("sentiment", Value.str "negative")] ∧
      T4.decide_next (merge [] [("sentiment", Value.str "negative")]) = some "sorry" ∧
      lookupKey [("thank", Tgt.node "thanknode")] "sorry" = none ∧
      (invoke
            (mkCondGraph (fun _ => some [("sentiment", Value.str "negative")])
              T4.decide_next [("thank", Tgt.node "thanknode")])
            1 [] =
          RunResult.routingError "check" "sorry" ∧
        ∀ fs tr,
          invoke
              (mkCondGraph (fun _ => some [("sentiment", Value.str "negative")])
                T4.decide_next [("thank", Tgt.node "thanknode")])
              1 [] ≠
            RunResult.ok fs tr) :=
  ⟨by decide, by decide, by decide,
    c6_unmapped_routing_key (fun _ => some [("sentiment", Value.str "negative")])
      T4.decide_next [("thank", Tgt.node "thanknode")] []
      [("sentiment", Value.str "negative")] "sorry" 0 (by decide) (by decide) (by decide)⟩

/-- C7: a graph with a static edge endpoint naming a node never registered
via add_node fails at compile time with a dangling-reference definition
error, producing no workflow. -/
theorem c7_dangling_reference (g : Graph) (t : String)
    (he : (∃ tg, (Src.node t, tg) ∈ g.edges) ∨ ∃ sr, (sr, Tgt.node t) ∈ g.edges)
    (hn : t ∉ nodeNames g) :
    ∃ nm, compile g = .error (DefError.dangling nm) := by
  have hmem : t ∈ referencedNames g := by
    unfold referencedNames
    refine List.mem_append.mpr (Or.inl ?_)
    rcases he with ⟨tg, he⟩ | ⟨sr, he⟩
    · exact List.mem_flatMap.mpr ⟨(Src.node t, tg), he, by simp [srcName]⟩
    · exact List.mem_flatMap.mpr ⟨(sr, Tgt.node t), he, by simp [srcName, tgtName]⟩
  have hfind : ((referencedNames g).find? fun n => !(nodeNames g).contains n).isSome := by
    rw [List.find?_isSome]
    exact ⟨t, hmem, by simp [hn]⟩
  rcases Option.isSome_iff_exists.mp hfind with ⟨nm, hnm⟩
  refine ⟨nm, ?_⟩
  unfold compile danglingName
  rw [hnm]

-- Concrete instance: the ghost edge of ghostGraph makes compile fail.
theorem c7_dangling_reference_witness :
    ((∃ tg, (Src.node "ghost", tg) ∈ ghostGraph.edges) ∨
        ∃ sr, (sr, Tgt.node "ghost") ∈ ghostGraph.edges) ∧
      "ghost" ∉ nodeNames ghostGraph ∧
      ∃ nm, compile ghostGraph = .error (DefError.dangling nm) :=
  ⟨Or.inr ⟨Src.node "A", by decide⟩, by decide,
    c7_dangling_reference ghostGraph "ghost" (Or.inr ⟨Src.node "A", by decide⟩)
      (by decide)⟩

theorem pyIntGo_isSome (u : PyUnicode) (ds : List Char)
    (h : ∀ c ∈ ds, (u.decimal c).isSome = true) :
    ∀ acc : Nat, ∃ m, pyIntGo u ds acc = some m := by
  induction ds with
  | nil => exact fun acc => ⟨acc, rfl⟩
  | cons c cs ih =>
      intro acc
      rcases Option.isSome_iff_exists.mp (h c (List.mem_cons_self _ _)) with ⟨v, hv⟩
      rcases ih (fun x hx => h x (List.mem_cons_of_mem _ hx)) (acc * 10 + v) with ⟨m, hm⟩
      exact ⟨m, by simp [pyIntGo, hv, hm]⟩

-- C10 fails on the code: the response "x²5" contains digit characters —
-- '5' is even an ASCII digit, and the superscript two also satisfies
-- str.isdigit — yet int("²5") raises a ValueError, so grammar_node raises
-- instead of returning a score.
theorem c10_unicode_digit_counterexample :
    ("x²5".toList.any unicodeDemo.isdigit = true) ∧
      ("x²5".toList.any Char.isDigit = true) ∧
      parseScoreU unicodeDemo "x²5" = none ∧
      grammar_nodeU unicodeDemo (fun _ => "x²5") [("essay", Value.str "e")] = none :=
  ⟨by decide, by decide, by decide, by decide⟩

/-- C10 (amended): on any LLM response whose first at most three digit
characters exist and are all decimal digits — the inputs on which `int()`
does not raise — the score extraction shared by grammar_node,
sentiment_node and clarity_node succeeds with the base-10 value of those
characters' decimal values clamped by min to 100, hence in 0..100, and
each node returns exactly that score under its own key. -/
theorem c10_scores_decimal_digits (u : PyUnicode) (resp : String)
    (hne : ((pyStrip resp).toList.filter u.isdigit).take 3 ≠ [])
    (hdec : ∀ c ∈ ((pyStrip resp).toList.filter u.isdigit).take 3,
      (u.decimal c).isSome = true) :
    ∃ n : Nat, parseScoreU u resp = some n ∧ n ≤ 100 ∧
      (∀ (llm : Llm) (s : State) (e : Value), lookupKey s "essay" = some e →
        llm (T3.grammarPrompt e) = resp →
        grammar_nodeU u llm s = some [("grammar_score", Value.int n)]) ∧
      (∀ (llm : Llm) (s : State) (e : Value), lookupKey s "essay" = some e →
        llm (T3.sentimentPrompt e) = resp →
        sentiment_nodeU u llm s = some [("sentiment_score", Value.int n)]) ∧
      (∀ (llm : Llm) (s : State) (e : Value), lookupKey s "essay" = some e →
        llm (T3.clarityPrompt e) = resp →
        clarity_nodeU u llm s = some [("clarity_score", Value.int n)]) := by
  obtain ⟨m, hm⟩ :=
    pyIntGo_isSome u (((pyStrip resp).toList.filter u.isdigit).take 3) hdec 0
  have hps : parseScoreU u resp = some (min m 100) := by
    rcases hds : ((pyStrip resp).toList.filter u.isdigit).take 3 with - | ⟨c, cs⟩
    · exact absurd hds hne
    · rw [hds] at hm
      have hpi : pyInt u (c :: cs) = some m := by
        rw [show pyInt u (c :: cs) = pyIntGo u (c :: cs) 0 from rfl]
        exact hm
      unfold parseScoreU
      rw [hds, hpi]
  refine ⟨min m 100, hps, min_le_right _ _, ?_, ?_, ?_⟩ <;>
    intro llm s e hlk hresp <;>
    simp [grammar_nodeU, sentiment_nodeU, clarity_nodeU, hlk, hresp, hps]

-- Concrete instance of the amended claim: "٩99" — an Arabic-Indic nine
-- followed by two ASCII nines — is all decimal digits, int() values it as
-- 999 and the clamp yields 100, as in Python.
theorem c10_scores_decimal_digits_witness :
    (((pyStrip "٩99").toList.filter unicodeDemo.isdigit).take 3 ≠ []) ∧
      (∀ c ∈ ((pyStrip "٩99").toList.filter unicodeDemo.isdigit).take 3,
        (unicodeDemo.decimal c).isSome = true) ∧
      (∃ n : Nat, parseScoreU unicodeDemo "٩99" = some n ∧ n ≤ 100 ∧
        (∀ (llm : Llm) (s : State) (e : Value), lookupKey s "essay" = some e →
          llm (T3.grammarPrompt e) = "٩99" →
          grammar_nodeU unicodeDemo llm s = some [("grammar_score", Value.int n)]) ∧
        (∀ (llm : Llm) (s : State) (e : Value), lookupKey s "essay" = some e →
          llm (T3.sentimentPrompt e) = "٩99" →
          sentiment_nodeU unicodeDemo llm s = some [("sentiment_score", Value.int n)]) ∧
        (∀ (llm : Llm) (s : State) (e : Value), lookupKey s "essay" = some e →
          llm (T3.clarityPrompt e) = "٩99" →
          clarity_nodeU unicodeDemo llm s = some [("clarity_score", Value.int n)])) :=
  ⟨by decide, by decide,
    c10_scores_decimal_digits unicodeDemo "٩99" (by decide) (by decide)⟩

theorem lookupKey_append_right {α : Type} (pre rest : List (String × α)) (k : String)
    (hk : k ∉ pre.map Prod.fst) :
    lookupKey (pre ++ rest) k = lookupKey rest k := by
  induction pre with
  | nil => rfl
  | cons a t ih =>
      simp only [List.map_cons, List.mem_cons] at hk
      push_neg at hk
      simp only [List.cons_append, lookupKey]
      rw [if_neg (Ne.symm hk.1)]
      exact ih hk.2

theorem lookupKey_of_nodup {α : Type} (pre suf : List (String × α)) (k : String) (v : α)
    (hnd : ((pre ++ (k, v) :: suf).map Prod.fst).Nodup) :
    lookupKey (pre ++ (k, v) :: suf) k = some v := by
  have hk : k ∉ pre.map Prod.fst := by
    simp only [List.map_append, List.map_cons] at hnd
    rcases List.nodup_append.mp hnd with ⟨-, -, hdisj⟩
    intro hmem
    exact hdisj hmem (List.mem_cons_self _ _)
  rw [lookupKey_append_right _ _ _ hk]
  simp [lookupKey]

theorem chain_names (pre suf : List NW) (n : String) (w : Work)
    (hnd : ((pre ++ (n, w) :: suf).map Prod.fst).Nodup) :
    n ∉ pre.map Prod.fst ∧ n ∉ suf.map Prod.fst := by
  simp only [List.map_append, List.map_cons] at hnd
  rcases List.nodup_append.mp hnd with ⟨-, hcons, hdisj⟩
  rcases List.nodup_cons.mp hcons with ⟨hnsuf, -⟩
  exact ⟨fun hmem => hdisj hmem (List.mem_cons_self _ _), hnsuf⟩

theorem chainEdges_staticMatch_nil (n : String) (l : List NW)
    (h : n ∉ l.map Prod.fst) :
    (chainEdges l).filterMap (staticMatch n) = [] := by
  induction l with
  | nil => rfl
  | cons p t ih =>
      simp only [List.map_cons, List.mem_cons] at h
      push_neg at h
      simp only [chainEdges, List.filterMap_cons, staticMatch]
      rw [if_neg (Ne.symm h.1)]
      exact ih h.2

theorem chainEdges_staticMatch (pre suf : List NW) (n : String) (w : Work)
    (hpre : n ∉ pre.map Prod.fst) (hsuf : n ∉ suf.map Prod.fst) :
    (chainEdges (pre ++ (n, w) :: suf)).filterMap (staticMatch n) = [firstTgt suf] := by
  induction pre with
  | nil =>
      simp [chainEdges, List.filterMap_cons, staticMatch,
        chainEdges_staticMatch_nil n suf hsuf]
  | cons p t ih =>
      simp only [List.map_cons, List.mem_cons] at hpre
      push_neg at hpre
      simp only [List.cons_append, chainEdges, List.filterMap_cons, staticMatch]
      rw [if_neg (Ne.symm hpre.1)]
      exact ih hpre.2

theorem staticSuccs_chainGraph (pre suf : List NW) (n : String) (w : Work)
    (hpre : n ∉ pre.map Prod.fst) (hsuf : n ∉ suf.map Prod.fst) :
    staticSuccs (chainGraph (pre ++ (n, w) :: suf)) n = [firstTgt suf] := by
  simp only [staticSuccs, chainGraph, List.filterMap_cons, staticMatch]
  exact chainEdges_staticMatch pre suf n w hpre hsuf

theorem chainEdges_startMatch (l : List NW) :
    (chainEdges l).filterMap startMatch = [] := by
  induction l with
  | nil => rfl
  | cons p t ih => simp [chainEdges, List.filterMap_cons, startMatch, ih]

theorem startSuccs_chainGraph (l : List NW) :
    startSuccs (chainGraph l) = [firstTgt l] := by
  simp [startSuccs, chainGraph, List.filterMap_cons, startMatch, chainEdges_startMatch]

theorem getWork_chainGraph (pre suf : List NW) (n : String) (w : Work)
    (hnd : ((pre ++ (n, w) :: suf).map Prod.fst).Nodup) :
    getWork (chainGraph (pre ++ (n, w) :: suf)) n = some w :=
  lookupKey_of_nodup pre suf n w hnd

theorem condSuccs_chainGraph (l : List NW) (n : String) (s : State) :
    condSuccs (chainGraph l) n s = .ok [] := rfl

theorem nextFrontier_end : nextFrontier [Tgt.END] = [] := rfl

theorem nextFrontier_node (m : String) : nextFrontier [Tgt.node m] = [m] := rfl

theorem invokeLoop_nil_frontier (g : Graph) (fuel : Nat) (s : State) (tr : List String) :
    invokeLoop g fuel [] s tr = .ok s tr := by
  cases fuel <;> rfl

theorem invokeLoop_chain (L : List NW) (hnd : (L.map Prod.fst).Nodup) :
    ∀ (suf : List NW), ∀ (pre : List NW) (n : NW), L = pre ++ n :: suf →
      ∀ (fuel : Nat), suf.length < fuel → ∀ (s : State) (tr : List String),
        invokeLoop (chainGraph L) fuel [n.1] s tr = seqRun (n :: suf) s tr := by
  intro suf
  induction suf with
  | nil =>
      intro pre n hL fuel hfuel s tr
      obtain ⟨nm, w⟩ := n
      subst hL
      obtain ⟨hpre, hsuf⟩ := chain_names pre [] nm w hnd
      cases fuel with
      | zero => omega
      | succ f =>
          rcases hw : w s with - | r
          · simp [invokeLoop, runWave, seqRun,
              getWork_chainGraph pre [] nm w hnd, hw]
          · simp [invokeLoop, runWave, seqRun,
              getWork_chainGraph pre [] nm w hnd, hw, condSuccs_chainGraph,
              staticSuccs_chainGraph pre [] nm w hpre hsuf, firstTgt,
              nextFrontier_end, invokeLoop_nil_frontier]
  | cons m suf' ih =>
      intro pre n hL fuel hfuel s tr
      obtain ⟨nm, w⟩ := n
      obtain ⟨mn, mw⟩ := m
      subst hL
      obtain ⟨hpre, hsuf⟩ := chain_names pre ((mn, mw) :: suf') nm w hnd
      cases fuel with
      | zero => omega
      | succ f =>
          have hrec := ih (pre ++ [(nm, w)]) (mn, mw) (by simp) f (by
            simp only [List.length_cons] at hfuel
            omega)
          rcases hw : w s with - | r
          · simp [invokeLoop, runWave, seqRun,
              getWork_chainGraph pre ((mn, mw) :: suf') nm w hnd, hw]
          · simp only [invokeLoop, runWave, seqRun,
              getWork_chainGraph pre ((mn, mw) :: suf') nm w hnd, hw,
              condSuccs_chainGraph,
              staticSuccs_chainGraph pre ((mn, mw) :: suf') nm w hpre hsuf, firstTgt,
              List.append_nil, nextFrontier_node]
            exact hrec (merge s r) (tr ++ [nm])

/-- C1: for every linear-chain graph START→n₁→n₂→...→END over distinct node
names, invoke returns exactly the result of applying each node's merge
sequentially in edge order (including the trace of executed names and the
propagation of a failing node). -/
theorem c1_linear_chain (l : List NW) (hnd : (l.map Prod.fst).Nodup) (fuel : Nat)
    (hfuel : l.length ≤ fuel) (s : State) :
    invoke (chainGraph l) fuel s = seqRun l s [] := by
  unfold invoke
  rw [startSuccs_chainGraph]
  cases l with
  | nil =>
      simp [firstTgt, nextFrontier_end, invokeLoop_nil_frontier, seqRun]
  | cons n rest =>
      obtain ⟨nm, w⟩ := n
      rw [show firstTgt ((nm, w) :: rest) = Tgt.node nm from rfl, nextFrontier_node]
      exact invokeLoop_chain ((nm, w) :: rest) hnd rest [] (nm, w) rfl fuel
        (by simp only [List.length_cons] at hfuel; omega) s []

-- Concrete instance of the chain refinement: the two-node blog pipeline of
-- test2.py, outline_generator then content_generator, run on a title-only
-- initial state.
theorem c1_linear_chain_witness :
    (([("outline_generator", T2.generate_outline fun _ => "o"),
          ("content_generator", T2.generate_content fun _ => "o")] : List NW).map
        Prod.fst).Nodup ∧
      (([("outline_generator", T2.generate_outline fun _ => "o"),
          ("content_generator", T2.generate_content fun _ => "o")] : List NW).length ≤ 2) ∧
      invoke
          (chainGraph
            [("outline_generator", T2.generate_outline fun _ => "o"),
              ("content_generator", T2.generate_content fun _ => "o")])
          2 [("title", Value.str "AI")] =
        seqRun
          [("outline_generator", T2.generate_outline fun _ => "o"),
            ("content_generator", T2.generate_content fun _ => "o")]
          [("title", Value.str "AI")] [] :=
  ⟨by decide, by decide,
    c1_linear_chain
      [("outline_generator", T2.generate_outline fun _ => "o"),
        ("content_generator", T2.generate_content fun _ => "o")]
      (by decide) 2 (by decide) [("title", Value.str "AI")]⟩

/-- C3: in the fan-out/fan-in graph START→{grammar, sentiment, clarity}→
finalizer→END the parallel wave, executed in ANY order of the three branch
nodes, produces the same merged state, that state carries all three written
score keys when the fan-in node sees it, and the whole run ends in the same
final state whatever the order — the disjoint merges commute. -/
theorem c3_parallel_merge_commutes (llm : Llm) (essay : String) (fr : List String)
    (gs ss cs : Nat) (hperm : fr.Perm ["grammar", "sentiment", "clarity"])
    (hg : parseScore (llm (T3.grammarPrompt (Value.str essay))) = some gs)
    (hs : parseScore (llm (T3.sentimentPrompt (Value.str essay))) = some ss)
    (hcl : parseScore (llm (T3.clarityPrompt (Value.str essay))) = some cs) :
    runWave (T3.graph llm) fr (T3.initState essay) =
        Except.ok (T3.midState essay gs ss cs,
          [Tgt.node "finalizer", Tgt.node "finalizer", Tgt.node "finalizer"], fr) ∧
      lookupKey (T3.midState essay gs ss cs) "grammar_score" = some (Value.int gs) ∧
      lookupKey (T3.midState essay gs ss cs) "sentiment_score" = some (Value.int ss) ∧
      lookupKey (T3.midState essay gs ss cs) "clarity_score" = some (Value.int cs) ∧
      invokeLoop (T3.graph llm) 2 fr (T3.initState essay) [] =
        RunResult.ok (T3.finalState llm essay gs ss cs) (fr ++ ["finalizer"]) := by
  have hlen := hperm.length_eq
  obtain ⟨a, b, c, rfl⟩ : ∃ a b c, fr = [a, b, c] := by
    rcases fr with - | ⟨a, - | ⟨b, - | ⟨c, - | ⟨d, t⟩⟩⟩⟩ <;> simp at hlen
    exact ⟨a, b, c, rfl⟩
  have hnd : ([a, b, c] : List String).Nodup := hperm.nodup_iff.mpr (by decide)
  have ha : a ∈ (["grammar", "sentiment", "clarity"] : List String) :=
    hperm.mem_iff.mp (by simp)
  have hb : b ∈ (["grammar", "sentiment", "clarity"] : List String) :=
    hperm.mem_iff.mp (by simp)
  have hcm : c ∈ (["grammar", "sentiment", "clarity"] : List String) :=
    hperm.mem_iff.mp (by simp)
  simp only [List.mem_cons, List.mem_singleton, List.not_mem_nil, or_false] at ha hb hcm
  rcases ha with rfl | rfl | rfl <;> rcases hb with rfl | rfl | rfl <;>
    rcases hcm with rfl | rfl | rfl <;>
    first
      | exact absurd hnd (by decide)
      | (refine ⟨?_, ?_, ?_, ?_, ?_⟩ <;>
          simp [invokeLoop, runWave, getWork, lookupKey, startSuccs, startMatch,
            staticSuccs, staticMatch, condSuccs, condEdgesOf, routeAll, routeOne,
            nextFrontier, dedupFirst, dedupAux, merge, setKey, List.filterMap_cons,
            T3.graph, T3.grammar_node, T3.sentiment_node, T3.clarity_node,
            T3.finalizer_node, T3.initState, T3.midState, T3.finalState, hg, hs, hcl])

-- Concrete instance: the branch order clarity, grammar, sentiment with a
-- constant scorer.
theorem c3_parallel_merge_commutes_witness :
    List.Perm ["clarity", "grammar", "sentiment"] ["grammar", "sentiment", "clarity"] ∧
      parseScore ((fun _ => "77") (T3.grammarPrompt (Value.str "hi"))) = some 77 ∧
      parseScore ((fun _ => "77") (T3.sentimentPrompt (Value.str "hi"))) = some 77 ∧
      parseScore ((fun _ => "77") (T3.clarityPrompt (Value.str "hi"))) = some 77 ∧
      (runWave (T3.graph fun _ => "77") ["clarity", "grammar", "sentiment"]
            (T3.initState "hi") =
          Except.ok (T3.midState "hi" 77 77 77,
            [Tgt.node "finalizer", Tgt.node "finalizer", Tgt.node "finalizer"],
            ["clarity", "grammar", "sentiment"]) ∧
        lookupKey (T3.midState "hi" 77 77 77) "grammar_score" = some (Value.int 77) ∧
        lookupKey (T3.midState "hi" 77 77 77) "sentiment_score" = some (Value.int 77) ∧
        lookupKey (T3.midState "hi" 77 77 77) "clarity_score" = some (Value.int 77) ∧
        invokeLoop (T3.graph fun _ => "77") 2 ["clarity", "grammar", "sentiment"]
            (T3.initState "hi") [] =
          RunResult.ok (T3.finalState (fun _ => "77") "hi" 77 77 77)
            (["clarity", "grammar", "sentiment"] ++ ["finalizer"])) :=
  ⟨by decide, by decide, by decide, by decide,
    c3_parallel_merge_commutes (fun _ => "77") "hi" ["clarity", "grammar", "sentiment"]
      77 77 77 (by decide) (by decide) (by decide) (by decide)⟩

/-- C5: in the cyclic graph START→generate→approval with the conditional
edge looping back to generate until approved, a run in which the human
rejects whenever consulted (the router premise counter < 3 → A) terminates
at the auto-approval — exactly 3 executions of generate appear in the
trace and the final state carries attempts = 3. -/
theorem c5_cycle_terminates (llm : Llm) (ans fbIn : Int → String) (pname : String)
    (h1 : pyLower (ans 1) ≠ "y") (h2 : pyLower (ans 2) ≠ "y") :
    invoke (T5.graph llm ans fbIn) 7 (T5.initState pname) =
        RunResult.ok
          [("product_name", Value.str pname),
            ("description", Value.str (T5.desc3 llm fbIn pname)),
            ("approved", Value.bool true), ("attempts", Value.int 3),
            ("feedback", Value.str "")]
          ["generate", "approval", "generate", "approval", "generate", "approval"] ∧
      (["generate", "approval", "generate", "approval", "generate",
          "approval"].count "generate" = 3) ∧
      lookupKey
          [("product_name", Value.str pname),
            ("description", Value.str (T5.desc3 llm fbIn pname)),
            ("approved", Value.bool true), ("attempts", Value.int 3),
            ("feedback", Value.str "")] "attempts" =
        some (Value.int 3) := by
  refine ⟨?_, by decide, by simp [lookupKey]⟩
  simp [invoke, invokeLoop, runWave, getWork, lookupKey, startSuccs, startMatch,
    staticSuccs, staticMatch, condSuccs, condEdgesOf, routeAll, routeOne, nextFrontier,
    dedupFirst, dedupAux, merge, setKey, List.filterMap_cons, T5.graph,
    T5.generate_description, T5.get_approval, T5.decide_next, T5.condEdge, T5.END_KEY,
    T5.attemptsOf, T5.initState, T5.desc3, T5.genPromptFb, T5.genPromptPlain,
    Value.truthy, h1, h2]

-- Concrete instance: the human types "No" twice, then auto-approval fires.
theorem c5_cycle_terminates_witness :
    pyLower ((fun _ : Int => "No") 1) ≠ "y" ∧
      pyLower ((fun _ : Int => "No") 2) ≠ "y" ∧
      (invoke (T5.graph (fun p => p) (fun _ => "No") fun _ => "shorter") 7
            (T5.initState "Smart Watch") =
          RunResult.ok
            [("product_name", Value.str "Smart Watch"),
              ("description",
                Value.str (T5.desc3 (fun p => p) (fun _ => "shorter") "Smart Watch")),
              ("approved", Value.bool true), ("attempts", Value.int 3),
              ("feedback", Value.str "")]
            ["generate", "approval", "generate", "approval", "generate", "approval"] ∧
        (["generate", "approval", "generate", "approval", "generate",
            "approval"].count "generate" = 3) ∧
        lookupKey
            [("product_name", Value.str "Smart Watch"),
              ("description",
                Value.str (T5.desc3 (fun p => p) (fun _ => "shorter") "Smart Watch")),
              ("approved", Value.bool true), ("attempts", Value.int 3),
              ("feedback", Value.str "")] "attempts" =
          some (Value.int 3)) :=
  ⟨by decide, by decide,
    c5_cycle_terminates (fun p => p) (fun _ => "No") (fun _ => "shorter") "Smart Watch"
      (by decide) (by decide)⟩

-- Concrete instance: a neutral sentiment routes to "sorry" and resolves.
theorem c9_decide_next_total_witness :
    lookupKey [("sentiment", Value.str "neutral")] "sentiment" =
        some (Value.str "neutral") ∧
      (T4.decide_next [("sentiment", Value.str "neutral")] =
          some (if Value.str "neutral" = Value.str "positive" then "thank" else "sorry") ∧
        ∃ t, routeOne T4.condEdge [("sentiment", Value.str "neutral")] = Except.ok t) :=
  ⟨by decide,
    c9_decide_next_total [("sentiment", Value.str "neutral")] (Value.str "neutral")
      (by decide)⟩

end LG
